import Mathlib

/-!
Verification of the RAG-Tutor backend (src/backend/app.py) against its
natural-language specification.  The request-time hint pipeline, the prompt
builder, the level table and the upload pipeline are shallowly embedded as
pure Lean functions; the external collaborators (vector search, language
model, text splitter) are parameters of those functions.
-/

/-- One entry of the `HINT_LEVELS` dictionary (app.py lines 275-301):
a human-readable name, a description, and the prompt instruction. -/
structure LevelInfo where
  name : String
  description : String
  prompt_instruction : String
deriving DecidableEq, Repr

/-- The `HINT_LEVELS` dictionary, app.py lines 275-301, as a partial map
from integer keys (Python dict lookup). -/
def hintLevels? (level : Int) : Option LevelInfo :=
  if level = 1 then
    some { name := "Konzept"
         , description := "Allgemeines Konzept und Theorie"
         , prompt_instruction := "Erkläre nur das grundlegende Konzept oder die Theorie hinter der Frage. Gib KEINE konkreten Befehle oder Tools an. Halte die Antwort kurz (2-3 Sätze)." }
  else if level = 2 then
    some { name := "Tool/Bereich"
         , description := "Welches Tool oder welcher Bereich"
         , prompt_instruction := "Nenne das relevante Tool, Programm oder den Konfigurationsbereich. Gib noch KEINE konkreten Befehle oder Syntax. Beispiel: \x27Du brauchst den Dienste-Manager\x27 oder \x27Schau in die Firewall-Einstellungen\x27." }
  else if level = 3 then
    some { name := "Syntax/Weg"
         , description := "Konkreter Befehl oder Weg"
         , prompt_instruction := "Gib den konkreten Befehl, Menüpfad oder die Syntax an. Der Schüler soll es selbst ausführen können. Erkläre kurz die Parameter." }
  else if level = 4 then
    some { name := "Lösung"
         , description := "Vollständige Lösung"
         , prompt_instruction := "Gib die vollständige Lösung mit allen Schritten. Erkläre was jeder Schritt bewirkt.\n- Gehe JEDEN einzelnen Schritt durch, der im Kontext steht\n- Verwende EXAKT die IPs, Gateways und Werte aus dem Kontext\n- ERFINDE KEINE Details die nicht im Kontext stehen\n- Wenn etwas unklar ist, sage es\n- Formatiere übersichtlich mit nummerierten Schritten" }
  else
    none

/-- `HINT_LEVELS.get(hint_level, HINT_LEVELS[1])` in `build_hint_prompt`
(app.py line 307): dictionary lookup falling back to the level-1 entry. -/
def hintLevelsGet (level : Int) : LevelInfo :=
  (hintLevels? level).getD ((hintLevels? 1).getD ⟨"KeyError", "", ""⟩)

/-- `HINT_LEVELS[hint_level]` at app.py line 439: a direct dictionary index.
A missing key would raise KeyError in Python; the sentinel entry records
that (the theorems show it never surfaces for clamped levels). -/
def hintLevelsIndex (level : Int) : LevelInfo :=
  (hintLevels? level).getD ⟨"KeyError", "", ""⟩

/-- `max(1, min(4, request.hint_level))`, app.py line 405. -/
def clampLevel (level : Int) : Int :=
  max 1 (min 4 level)

example : clampLevel 0 = 1 := by decide
example : clampLevel (-5) = 1 := by decide
example : clampLevel 9 = 4 := by decide
example : clampLevel 3 = 3 := by decide

/-! ### The prompt builder, `build_hint_prompt` (app.py lines 304-342)

The f-string bodies are transcribed as concatenations of literal pieces;
the two cross-cutting directive lines of the WICHTIG block get their own
names so theorems can point at them.  `sysWichtigLiteral_eq` below
certifies the split against the contiguous literal. -/

/-- Opening of the system prompt, up to the interpolated hint level. -/
def sysHead : String :=
  "Du bist ein Tutor für IT-Administration und Cybersecurity.\nDu hilfst Schülern bei Lab-Übungen, indem du progressive Hinweise gibst.\n\nAKTUELLER HINT-LEVEL: "

/-- WICHTIG block up to the anti-fabrication line. -/
def sysWichtigA : String :=
  "\n\nWICHTIG:\n- Antworte auf Deutsch\n- Sei präzise und klar\n- Gib NUR Informationen passend zum aktuellen Level\n- Wenn der Kontext nicht ausreicht, sage das ehrlich\n- Verwende EXAKT die IPs, Subnetze, Gateways aus dem Kontext\n"

/-- The directive forbidding fabricated values not present in the context. -/
def noFabricationDirective : String :=
  "- ERFINDE KEINE Werte die nicht im Kontext oder den Unterlagen stehen"

/-- The directive requiring the generator to say so when information is
missing from the grounding material. -/
def admitMissingDirective : String :=
  "- Wenn Information fehlt, sage: \"Diese Information steht nicht in den Unterlagen\""

/-- Remainder of the WICHTIG block after the admit-missing line. -/
def sysWichtigC : String :=
  "\n- Antworte auf Deutsch\n- Sei präzise und vollständig\n- Gehe JEDEN einzelnen Schritt durch, der im Kontext steht\n- BEHALTE Variablen-Notation bei: 192.168.x.0 statt konkreter IPs\n- Erkläre dass x = Labor-ID des Students (student03 → x=3)\n- ERFINDE KEINE konkreten IP-Adressen\n- Wenn der User seinen Lab-Kontext angibt, ersetze x durch seine Nummer"

/-- The constant tail of the system prompt after the per-level instruction. -/
def sysWichtig : String :=
  sysWichtigA ++ noFabricationDirective ++ "\n" ++ admitMissingDirective ++ sysWichtigC

set_option maxRecDepth 4000 in
/-- The split of the WICHTIG block matches the contiguous source literal. -/
theorem sysWichtig_eq : sysWichtig =
    "\n\nWICHTIG:\n- Antworte auf Deutsch\n- Sei präzise und klar\n- Gib NUR Informationen passend zum aktuellen Level\n- Wenn der Kontext nicht ausreicht, sage das ehrlich\n- Verwende EXAKT die IPs, Subnetze, Gateways aus dem Kontext\n- ERFINDE KEINE Werte die nicht im Kontext oder den Unterlagen stehen\n- Wenn Information fehlt, sage: \"Diese Information steht nicht in den Unterlagen\"\n- Antworte auf Deutsch\n- Sei präzise und vollständig\n- Gehe JEDEN einzelnen Schritt durch, der im Kontext steht\n- BEHALTE Variablen-Notation bei: 192.168.x.0 statt konkreter IPs\n- Erkläre dass x = Labor-ID des Students (student03 → x=3)\n- ERFINDE KEINE konkreten IP-Adressen\n- Wenn der User seinen Lab-Kontext angibt, ersetze x durch seine Nummer" := by
  rfl

/-- The `system_prompt` f-string of `build_hint_prompt` (app.py lines
309-329), given the already looked-up level entry. -/
def systemPromptFor (hint_level : Int) (info : LevelInfo) : String :=
  sysHead ++ toString hint_level ++ " (" ++ info.name ++ ")\nANWEISUNG: " ++
    info.prompt_instruction ++ sysWichtig

/-- The `user_prompt` f-string of `build_hint_prompt` (app.py lines
331-340), given the already looked-up level entry.  An empty
`lab_context` is falsy in Python, so the placeholder text is used. -/
def userPromptFor (question context lab_context : String) (hint_level : Int)
    (info : LevelInfo) : String :=
  "FRAGE DES SCHÜLERS:\n" ++ question ++
    "\n\nKONTEXT AUS DER WISSENSBASIS (wenn du andere Infos verwendest, markiere diese eindeutig als -nicht aus Wisensbasis-):\n" ++
    context ++ "\n\nLAB-KONTEXT:\n" ++
    (if lab_context.isEmpty then "Kein spezifischer Lab-Kontext angegeben"
     else lab_context) ++
    "\n\nGib einen Hinweis auf Level " ++ toString hint_level ++ " (" ++
    info.name ++ ")."

/-- `build_hint_prompt(question, context, lab_context, hint_level)`
(app.py lines 304-342): looks the level up with fallback to level 1 and
returns the `(system_prompt, user_prompt)` pair. -/
def build_hint_prompt (question context lab_context : String)
    (hint_level : Int) : String × String :=
  let level_info := hintLevelsGet hint_level
  (systemPromptFor hint_level level_info,
   userPromptFor question context lab_context hint_level level_info)

/-- `s` contains `sub` as a substring. -/
def ContainsStr (s sub : String) : Prop :=
  ∃ a b, s = a ++ sub ++ b

/-! ### The hint endpoint, `get_hint` (app.py lines 391-446) -/

/-- The `HintRequest` pydantic model (app.py lines 119-122).  `lab_context`
defaults to the empty string; a `None` is folded into `""` (both are falsy
where `lab_context` is used). -/
structure HintRequest where
  question : String
  lab_context : String
  hint_level : Int
deriving DecidableEq, Repr

/-- The `HintResponse` pydantic model (app.py lines 125-129). -/
structure HintResponse where
  hint : String
  hint_level : Int
  hint_level_name : String
  remaining_levels : Int
deriving DecidableEq, Repr

/-- The HTTPExceptions `get_hint` can raise: 503 when the service globals
are unset (lines 398-402) and 500 when the LLM chain raises
(lines 433-437).  There is no other raise site in the endpoint. -/
inductive HintError where
  | serviceUnavailable (detail : String)
  | generationError (detail : String)
deriving DecidableEq, Repr

/-- The process state and external collaborators `get_hint` consults:
whether the `llm` / `vectorstore` globals are set, the
`vectorstore.similarity_search(question, k=8)` call (`none` models a
raised exception, `some docs` the list of `page_content` fields), and the
`chain.invoke` call on the two prompts (`Except.error e` models a raised
exception with message `e`). -/
structure Backend where
  llmAvailable : Bool
  vectorstoreAvailable : Bool
  search : String → Option (List String)
  llm : String → String → Except String String

/-- The retrieval step of `get_hint` (app.py lines 407-413): join the
`page_content` of the search hits with a blank line; on a raised search
exception fall back to the fixed sentinel. -/
def contextOf (search : String → Option (List String))
    (question : String) : String :=
  match search question with
  | some docs => String.intercalate "\n\n" docs
  | none => "Keine relevanten Dokumente gefunden."

/-- The `(system_prompt, user_prompt)` pair `get_hint` hands to the LLM
chain (app.py lines 416-421): built from the question, the retrieved
context, the lab context and the clamped level. -/
def hintPrompts (st : Backend) (request : HintRequest) : String × String :=
  build_hint_prompt request.question (contextOf st.search request.question)
    request.lab_context (clampLevel request.hint_level)

/-- `get_hint` (app.py lines 391-446): check service availability, clamp
the level, retrieve context, build the prompts, invoke the LLM chain, and
shape the response.  (`current_user` only gates authentication and plays
no role in the body.) -/
def get_hint (st : Backend) (request : HintRequest) :
    Except HintError HintResponse :=
  if !st.llmAvailable || !st.vectorstoreAvailable then
    .error (.serviceUnavailable "Backend-Services nicht verfügbar")
  else
    match st.llm (hintPrompts st request).1 (hintPrompts st request).2 with
    | .error e =>
      .error (.generationError ("Fehler bei der Hint-Generierung: " ++ e))
    | .ok hint =>
      .ok { hint := hint
          , hint_level := clampLevel request.hint_level
          , hint_level_name := (hintLevelsIndex (clampLevel request.hint_level)).name
          , remaining_levels := 4 - clampLevel request.hint_level }

/-- A backend whose collaborators all succeed, for concrete evaluations. -/
def stubBackend : Backend :=
  { llmAvailable := true
  , vectorstoreAvailable := true
  , search := fun _ => some ["Dok A", "Dok B"]
  , llm := fun _ _ => .ok "Hinweis" }

/-- A backend whose LLM chain raises, for concrete evaluations. -/
def failingLlmBackend : Backend :=
  { llmAvailable := true
  , vectorstoreAvailable := true
  , search := fun _ => some ["Dok A"]
  , llm := fun _ _ => .error "boom" }

example : get_hint stubBackend ⟨"Frage", "", 1⟩ =
    .ok ⟨"Hinweis", 1, "Konzept", 3⟩ := rfl
example : get_hint stubBackend ⟨"Frage", "", 10⟩ =
    .ok ⟨"Hinweis", 4, "Lösung", 0⟩ := rfl
example : get_hint failingLlmBackend ⟨"Frage", "", 2⟩ =
    .error (.generationError "Fehler bei der Hint-Generierung: boom") := rfl

/-! ### Helper lemmas -/

theorem str_append_assoc (a b c : String) : a ++ b ++ c = a ++ (b ++ c) := by
  cases a with | mk a =>
  cases b with | mk b =>
  cases c with | mk c =>
  show String.mk (a ++ b ++ c) = String.mk (a ++ (b ++ c))
  rw [List.append_assoc]

/-- Case analysis on the outcomes of `get_hint`: service unavailability,
a raised LLM call, or a successful response shaped from the LLM output. -/
theorem get_hint_cases (st : Backend) (req : HintRequest) :
    ((st.llmAvailable = false ∨ st.vectorstoreAvailable = false) ∧
      get_hint st req =
        .error (.serviceUnavailable "Backend-Services nicht verfügbar")) ∨
    (∃ e, st.llm (hintPrompts st req).1 (hintPrompts st req).2 = .error e ∧
      get_hint st req =
        .error (.generationError ("Fehler bei der Hint-Generierung: " ++ e))) ∨
    (∃ hint, st.llm (hintPrompts st req).1 (hintPrompts st req).2 = .ok hint ∧
      get_hint st req =
        .ok ⟨hint, clampLevel req.hint_level,
             (hintLevelsIndex (clampLevel req.hint_level)).name,
             4 - clampLevel req.hint_level⟩) := by
  unfold get_hint
  split
  · rename_i hcond
    simp only [Bool.or_eq_true, Bool.not_eq_true'] at hcond
    exact Or.inl ⟨hcond, rfl⟩
  · cases hllm : st.llm (hintPrompts st req).1 (hintPrompts st req).2 with
    | error e => exact Or.inr (Or.inl ⟨e, rfl, rfl⟩)
    | ok hint => exact Or.inr (Or.inr ⟨hint, rfl, rfl⟩)

theorem clampLevel_bounds (level : Int) :
    1 ≤ clampLevel level ∧ clampLevel level ≤ 4 := by
  unfold clampLevel
  omega

theorem clampLevel_idem (level : Int) :
    clampLevel (clampLevel level) = clampLevel level := by
  unfold clampLevel
  omega

theorem get_hint_congr_clamp (st : Backend) (q lc : String) {a b : Int}
    (h : clampLevel a = clampLevel b) :
    get_hint st ⟨q, lc, a⟩ = get_hint st ⟨q, lc, b⟩ := by
  simp only [get_hint, hintPrompts, h]

/-! ### Claim theorems for the hint pipeline -/

/-- C1: the hint endpoint clamps every integer requested level into [1,4]
before use and never rejects it: the behaviour at any requested level
equals the behaviour at the clamped level (so level 0 or -5 behaves as
level 1 and level 9 or 10 as level 4 — there is no level-validation error
path), and the level carried in an ok response is the clamped value. -/
theorem get_hint_clamps_level (st : Backend) (q lc : String) (level : Int) :
    get_hint st ⟨q, lc, level⟩ = get_hint st ⟨q, lc, clampLevel level⟩ ∧
    1 ≤ clampLevel level ∧ clampLevel level ≤ 4 ∧
    (level ≤ 1 → get_hint st ⟨q, lc, level⟩ = get_hint st ⟨q, lc, 1⟩) ∧
    (4 ≤ level → get_hint st ⟨q, lc, level⟩ = get_hint st ⟨q, lc, 4⟩) ∧
    (∀ resp, get_hint st ⟨q, lc, level⟩ = .ok resp →
      resp.hint_level = clampLevel level) := by
  refine ⟨get_hint_congr_clamp st q lc (clampLevel_idem level).symm,
    (clampLevel_bounds level).1, (clampLevel_bounds level).2, ?_, ?_, ?_⟩
  · intro h
    exact get_hint_congr_clamp st q lc (by unfold clampLevel; omega)
  · intro h
    exact get_hint_congr_clamp st q lc (by unfold clampLevel; omega)
  · intro resp h
    rcases get_hint_cases st ⟨q, lc, level⟩ with ⟨_, h1⟩ | ⟨e, _, h2⟩ | ⟨hint, _, h3⟩
    · rw [h1] at h
      exact absurd h (by simp)
    · rw [h2] at h
      exact absurd h (by simp)
    · rw [h3] at h
      rw [Except.ok.injEq] at h
      subst h
      rfl

/-- Witness for C1 at concrete inputs 0 and 9. -/
theorem get_hint_clamps_level_witness :
    get_hint stubBackend ⟨"Frage", "", 0⟩ = get_hint stubBackend ⟨"Frage", "", 1⟩ ∧
    get_hint stubBackend ⟨"Frage", "", 9⟩ = get_hint stubBackend ⟨"Frage", "", 4⟩ ∧
    HintResponse.hint_level ⟨"Hinweis", 1, "Konzept", 3⟩ = clampLevel 0 :=
  ⟨(get_hint_clamps_level stubBackend "Frage" "" 0).2.2.2.1 (by decide),
   (get_hint_clamps_level stubBackend "Frage" "" 9).2.2.2.2.1 (by decide),
   (get_hint_clamps_level stubBackend "Frage" "" 0).2.2.2.2.2
     ⟨"Hinweis", 1, "Konzept", 3⟩ rfl⟩

/-- C10: `build_hint_prompt` is total over every integer hint level; for
any level outside 1..4 the dictionary lookup silently falls back to the
level-1 (Konzept) entry, so prompt construction cannot fail on an unknown
level even if the caller's clamping were bypassed. -/
theorem build_hint_prompt_fallback (level : Int)
    (h : level < 1 ∨ 4 < level) :
    hintLevelsGet level = hintLevelsGet 1 ∧
    ∀ q c lc, build_hint_prompt q c lc level =
      (systemPromptFor level (hintLevelsGet 1),
       userPromptFor q c lc level (hintLevelsGet 1)) := by
  have h1 : level ≠ 1 := by omega
  have h2 : level ≠ 2 := by omega
  have h3 : level ≠ 3 := by omega
  have h4 : level ≠ 4 := by omega
  have hEq : hintLevelsGet level = hintLevelsGet 1 := by
    simp [hintLevelsGet, hintLevels?, h1, h2, h3, h4]
  refine ⟨hEq, ?_⟩
  intro q c lc
  simp only [build_hint_prompt, hEq]

/-- Witness for C10 at the concrete out-of-range level 9. -/
theorem build_hint_prompt_fallback_witness :
    hintLevelsGet 9 = hintLevelsGet 1 ∧
    build_hint_prompt "F" "K" "" 9 =
      (systemPromptFor 9 (hintLevelsGet 1),
       userPromptFor "F" "K" "" 9 (hintLevelsGet 1)) :=
  ⟨(build_hint_prompt_fallback 9 (by decide)).1,
   (build_hint_prompt_fallback 9 (by decide)).2 "F" "K" ""⟩

/-- C4: at every integer hint level (so in particular at every level in
[1,4], not only level 4) the system prompt handed to the generator
contains the directive forbidding fabricated values not present in the
supplied context and the directive to state explicitly when the context
lacks the needed information. -/
theorem hint_prompt_always_forbids_fabrication (q c lc : String)
    (level : Int) :
    ContainsStr (build_hint_prompt q c lc level).1 noFabricationDirective ∧
    ContainsStr (build_hint_prompt q c lc level).1 admitMissingDirective := by
  constructor
  · refine ⟨sysHead ++ toString level ++ " (" ++ (hintLevelsGet level).name ++
      ")\nANWEISUNG: " ++ (hintLevelsGet level).prompt_instruction ++
      sysWichtigA,
      "\n" ++ admitMissingDirective ++ sysWichtigC, ?_⟩
    simp only [build_hint_prompt, systemPromptFor, sysWichtig,
      str_append_assoc]
  · refine ⟨sysHead ++ toString level ++ " (" ++ (hintLevelsGet level).name ++
      ")\nANWEISUNG: " ++ (hintLevelsGet level).prompt_instruction ++
      sysWichtigA ++ noFabricationDirective ++ "\n",
      sysWichtigC, ?_⟩
    simp only [build_hint_prompt, systemPromptFor, sysWichtig,
      str_append_assoc]

/-- C2 counterexample: the four fixed level labels are the German strings
of `HINT_LEVELS`; a level-1 response carries the name "Konzept", not
"Concept", and a level-4 response carries "Lösung", not "Full Solution". -/
theorem hint_level_names_are_german :
    get_hint stubBackend ⟨"Frage", "", 1⟩ =
      .ok ⟨"Hinweis", 1, "Konzept", 3⟩ ∧
    get_hint stubBackend ⟨"Frage", "", 4⟩ =
      .ok ⟨"Hinweis", 4, "Lösung", 0⟩ ∧
    ("Konzept" : String) ≠ "Concept" ∧
    ("Lösung" : String) ≠ "Full Solution" :=
  ⟨rfl, rfl, by decide, by decide⟩

/-- C2 (amended): every ok hint response satisfies
`remaining_levels = 4 - hint_level`, `remaining_levels ∈ [0,3]` with 0
exactly at level 4, and its level name is one of the four fixed labels of
`HINT_LEVELS` — the German "Konzept" at level 1 and "Lösung" at level 4. -/
theorem get_hint_response_invariants (st : Backend) (req : HintRequest)
    (resp : HintResponse) (h : get_hint st req = .ok resp) :
    resp.remaining_levels = 4 - resp.hint_level ∧
    0 ≤ resp.remaining_levels ∧ resp.remaining_levels ≤ 3 ∧
    (resp.remaining_levels = 0 ↔ resp.hint_level = 4) ∧
    (resp.hint_level_name = "Konzept" ∨
     resp.hint_level_name = "Tool/Bereich" ∨
     resp.hint_level_name = "Syntax/Weg" ∨
     resp.hint_level_name = "Lösung") ∧
    (resp.hint_level = 1 → resp.hint_level_name = "Konzept") ∧
    (resp.hint_level = 4 → resp.hint_level_name = "Lösung") := by
  rcases get_hint_cases st req with ⟨_, h1⟩ | ⟨e, _, h2⟩ | ⟨hint, _, h3⟩
  · rw [h1] at h
    exact absurd h (by simp)
  · rw [h2] at h
    exact absurd h (by simp)
  · rw [h3] at h
    rw [Except.ok.injEq] at h
    subst h
    have hb := clampLevel_bounds req.hint_level
    have hcases : clampLevel req.hint_level = 1 ∨
        clampLevel req.hint_level = 2 ∨ clampLevel req.hint_level = 3 ∨
        clampLevel req.hint_level = 4 := by omega
    rcases hcases with hc | hc | hc | hc <;>
      simp [hc, hintLevelsIndex, hintLevels?]

/-- Witness for C2 (amended) at a concrete level-1 request. -/
theorem get_hint_response_invariants_witness :
    HintResponse.hint_level_name ⟨"Hinweis", 1, "Konzept", 3⟩ = "Konzept" :=
  (get_hint_response_invariants stubBackend ⟨"Frage", "", 1⟩
    ⟨"Hinweis", 1, "Konzept", 3⟩ rfl).2.2.2.2.2.1 rfl

/-- C3 counterexample: a search that returns zero results makes the
retrieval step hand the generator the empty string as context — not the
"no relevant grounding found" sentinel. -/
theorem contextOf_zero_results_empty :
    contextOf (fun _ => some []) "Frage" = "" ∧
    contextOf (fun _ => some []) "Frage" ≠
      "Keine relevanten Dokumente gefunden." :=
  ⟨rfl, by decide⟩

/-- C3 (amended): the retrieval step of `get_hint` never raises; the
sentinel is supplied exactly when the index call raises, while a search
that succeeds with zero results silently yields the empty context string,
and a successful search yields the hit texts joined by blank lines. -/
theorem contextOf_characterisation
    (search : String → Option (List String)) (q : String) :
    (search q = none →
      contextOf search q = "Keine relevanten Dokumente gefunden.") ∧
    (search q = some [] → contextOf search q = "") ∧
    (∀ docs, search q = some docs →
      contextOf search q = String.intercalate "\n\n" docs) := by
  refine ⟨fun h => ?_, fun h => ?_, fun docs h => ?_⟩ <;>
    simp [contextOf, h, String.intercalate]

/-- Witness for C3 (amended) at concrete search outcomes. -/
theorem contextOf_characterisation_witness :
    contextOf (fun _ => none) "F" = "Keine relevanten Dokumente gefunden." ∧
    contextOf (fun _ => some []) "F" = "" ∧
    contextOf (fun _ => some ["A", "B"]) "F" =
      String.intercalate "\n\n" ["A", "B"] :=
  ⟨(contextOf_characterisation (fun _ => none) "F").1 rfl,
   (contextOf_characterisation (fun _ => some []) "F").2.1 rfl,
   (contextOf_characterisation (fun _ => some ["A", "B"]) "F").2.2
     ["A", "B"] rfl⟩

/-- C5 counterexample: a request whose question is empty (so also empty
after trimming) is not rejected: with the collaborators available the
endpoint runs retrieval and generation and returns an ok response. -/
theorem get_hint_empty_question_not_rejected :
    get_hint stubBackend ⟨"", "", 2⟩ =
      .ok ⟨"Hinweis", 2, "Tool/Bereich", 2⟩ := rfl

/-- C5 (amended): `get_hint` performs no validation of the question at
all — an empty question flows through retrieval and generation exactly
like any other, and with available services and a successful LLM call it
produces an ok response; the only rejections are service unavailability
and a raised LLM call, neither an input error.  (The sole emptiness check
in the repository is client-side, in the excluded frontend UI.) -/
theorem get_hint_empty_question_proceeds (st : Backend) (lc : String)
    (level : Int) (hint : String)
    (hl : st.llmAvailable = true) (hv : st.vectorstoreAvailable = true)
    (hgen : st.llm (hintPrompts st ⟨"", lc, level⟩).1
        (hintPrompts st ⟨"", lc, level⟩).2 = .ok hint) :
    get_hint st ⟨"", lc, level⟩ =
      .ok ⟨hint, clampLevel level,
           (hintLevelsIndex (clampLevel level)).name,
           4 - clampLevel level⟩ := by
  rcases get_hint_cases st ⟨"", lc, level⟩ with
    ⟨hbad, _⟩ | ⟨e, he, _⟩ | ⟨h2, hh, hres⟩
  · rcases hbad with hbad | hbad
    · rw [hl] at hbad
      exact absurd hbad (by simp)
    · rw [hv] at hbad
      exact absurd hbad (by simp)
  · rw [hgen] at he
    exact absurd he (by simp)
  · rw [hgen] at hh
    rw [Except.ok.injEq] at hh
    subst hh
    exact hres

/-- Witness for C5 (amended) at a concrete empty-question request. -/
theorem get_hint_empty_question_proceeds_witness :
    get_hint stubBackend ⟨"", "", 3⟩ =
      .ok ⟨"Hinweis", clampLevel 3,
           (hintLevelsIndex (clampLevel 3)).name, 4 - clampLevel 3⟩ :=
  get_hint_empty_question_proceeds stubBackend "" 3 "Hinweis" rfl rfl rfl

/-- C7: if the LLM chain raises during a hint request the whole request
fails with the 500 generation error carrying the raised message, and an
ok response's hint text is exactly the LLM chain's output — the endpoint
never substitutes a fabricated or cached hint for the generation result. -/
theorem get_hint_generation_contract (st : Backend) (req : HintRequest) :
    (∀ e, st.llmAvailable = true → st.vectorstoreAvailable = true →
      st.llm (hintPrompts st req).1 (hintPrompts st req).2 = .error e →
      get_hint st req =
        .error (.generationError ("Fehler bei der Hint-Generierung: " ++ e))) ∧
    (∀ resp, get_hint st req = .ok resp →
      st.llm (hintPrompts st req).1 (hintPrompts st req).2 = .ok resp.hint) := by
  constructor
  · intro e hl hv hllm
    rcases get_hint_cases st req with
      ⟨hbad, _⟩ | ⟨e2, he2, hres⟩ | ⟨h2, hh, _⟩
    · rcases hbad with hbad | hbad
      · rw [hl] at hbad
        exact absurd hbad (by simp)
      · rw [hv] at hbad
        exact absurd hbad (by simp)
    · rw [hllm] at he2
      rw [Except.error.injEq] at he2
      subst he2
      exact hres
    · rw [hllm] at hh
      exact absurd hh (by simp)
  · intro resp h
    rcases get_hint_cases st req with
      ⟨_, h1⟩ | ⟨e, _, h2⟩ | ⟨h3, hh, hres⟩
    · rw [h1] at h
      exact absurd h (by simp)
    · rw [h2] at h
      exact absurd h (by simp)
    · rw [hres] at h
      rw [Except.ok.injEq] at h
      subst h
      exact hh

/-- Witness for C7: a raising LLM backend surfaces the 500 error, and the
ok response of a succeeding backend carries exactly the LLM output. -/
theorem get_hint_generation_contract_witness :
    get_hint failingLlmBackend ⟨"Frage", "", 2⟩ =
      .error (.generationError ("Fehler bei der Hint-Generierung: " ++ "boom")) ∧
    stubBackend.llm (hintPrompts stubBackend ⟨"Frage", "", 1⟩).1
        (hintPrompts stubBackend ⟨"Frage", "", 1⟩).2 =
      .ok (HintResponse.hint ⟨"Hinweis", 1, "Konzept", 3⟩) :=
  ⟨(get_hint_generation_contract failingLlmBackend ⟨"Frage", "", 2⟩).1
      "boom" rfl rfl rfl,
   (get_hint_generation_contract stubBackend ⟨"Frage", "", 1⟩).2
      ⟨"Hinweis", 1, "Konzept", 3⟩ rfl⟩

/-! ### The upload endpoint, `upload_document` (app.py lines 449-535) -/

/-- Python whitespace as recognised by `str.strip()` (ASCII range). -/
def pyIsSpace (c : Char) : Bool :=
  c = ' ' || c = '\t' || c = '\n' || c = '\r' || c = '\x0b' || c = '\x0c'

/-- Python `str.strip()`: drop leading and trailing whitespace. -/
def pyStrip (s : String) : String :=
  String.mk (((s.data.dropWhile pyIsSpace).reverse.dropWhile pyIsSpace).reverse)

example : pyStrip "  ab c\n" = "ab c" := rfl
example : pyStrip " \t\n " = "" := rfl

/-- Index of the last '.' in a character list, if any. -/
def lastDotIndex : List Char → Option Nat
  | [] => none
  | c :: cs =>
    match lastDotIndex cs with
    | some i => some (i + 1)
    | none => if c = '.' then some 0 else none

/-- The extension component of Python `os.path.splitext(p)` for a bare
file name (no directory separators, as produced by an upload): the suffix
from the last dot, unless every character before that dot is itself a dot
(then there is no extension, e.g. ".bashrc"). -/
def splitextExt (p : String) : String :=
  match lastDotIndex p.data with
  | none => ""
  | some i =>
    if (p.data.take i).all (fun c => c = '.') then ""
    else String.mk (p.data.drop i)

example : splitextExt "doc.pdf" = ".pdf" := rfl
example : splitextExt "a.b.txt" = ".txt" := rfl
example : splitextExt ".bashrc" = "" := rfl
example : splitextExt "README" = "" := rfl

/-- Python `str.lower()` over the file name (ASCII case folding, which
covers the ASCII extensions the endpoint compares against). -/
def pyLower (s : String) : String :=
  String.mk (s.data.map Char.toLower)

example : pyLower "Lab.PDF" = "lab.pdf" := rfl

/-- `allowed_extensions` (app.py line 463). -/
def allowed_extensions : List String := [".pdf", ".sql", ".md", ".txt"]

/-- Provenance metadata attached to each chunk (app.py lines 510-515). -/
structure DocMeta where
  source : String
  file_type : String
  uploaded_by : String
  uploaded_at : String
deriving DecidableEq, Repr

/-- A langchain `Document` built from one chunk (app.py lines 507-518). -/
structure ChunkDoc where
  page_content : String
  metadata : DocMeta
deriving DecidableEq, Repr

/-- The `UploadResponse` pydantic model (app.py lines 132-135). -/
structure UploadResponse where
  message : String
  filename : String
  chunks_created : Nat
deriving DecidableEq, Repr

/-- The HTTPExceptions `upload_document` can raise: 503 when the service
globals are unset (lines 456-460), 400 for an unsupported extension
(lines 466-470) or blank extracted text (lines 492-496), and 500 when a
collaborator call raises (lines 531-535). -/
inductive UploadError where
  | serviceUnavailable (detail : String)
  | badRequest (detail : String)
  | internalError (detail : String)
deriving DecidableEq, Repr

/-- `upload_document` (app.py lines 449-535), after the text-extraction
collaborator: `split` is the configured
`RecursiveCharacterTextSplitter(chunk_size=1000, chunk_overlap=200)`
collaborator, `servicesOk` whether the `vectorstore`/`embeddings` globals
are set, `indexOk` whether `vectorstore.add_documents` succeeds,
`text` the extracted text, `username` the trainer principal and `now` the
`datetime.utcnow().isoformat()` timestamp.  Returns the response together
with the list of documents written to the index (empty on every error). -/
def upload_document (split : String → List String) (servicesOk : Bool)
    (indexOk : Bool) (filename username now text : String) :
    Except UploadError (UploadResponse × List ChunkDoc) :=
  if !servicesOk then
    .error (.serviceUnavailable "Backend-Services nicht verfügbar")
  else if !(allowed_extensions.contains (splitextExt (pyLower filename))) then
    .error (.badRequest ("Nur " ++ String.intercalate ", " allowed_extensions ++
      " Dateien werden unterstützt"))
  else if (pyStrip text).isEmpty then
    .error (.badRequest "Datei enthält keinen extrahierbaren Text")
  else
    let chunks := split text
    let documents := chunks.map fun chunk =>
      { page_content := chunk
      , metadata :=
          { source := filename
          , file_type := splitextExt (pyLower filename)
          , uploaded_by := username
          , uploaded_at := now } : ChunkDoc }
    if !indexOk then
      .error (.internalError "Fehler beim Verarbeiten: add_documents")
    else
      .ok ({ message := "Dokument erfolgreich hochgeladen"
           , filename := filename
           , chunks_created := chunks.length }, documents)

example : upload_document (fun t => [t]) true true "lab.txt" "trainer"
    "2026-10-12T00:00:00" "Inhalt" =
    .ok (⟨"Dokument erfolgreich hochgeladen", "lab.txt", 1⟩,
      [⟨"Inhalt", ⟨"lab.txt", ".txt", "trainer", "2026-10-12T00:00:00"⟩⟩]) := rfl

/-- C8: an upload whose file name's extension (lowercased) is not one of
.pdf/.sql/.md/.txt is rejected with the 400 input error before any text
extraction, chunking or index write — the outcome does not depend on the
extracted text, the splitter or the index at all — while a file of one of
the four supported types passes this check (it can never produce the
unsupported-type error). -/
theorem upload_extension_gate (split split₂ : String → List String)
    (indexOk indexOk₂ : Bool) (filename username now text text₂ : String) :
    (allowed_extensions.contains (splitextExt (pyLower filename)) = false →
      upload_document split true indexOk filename username now text =
        .error (.badRequest
          "Nur .pdf, .sql, .md, .txt Dateien werden unterstützt") ∧
      upload_document split true indexOk filename username now text =
        upload_document split₂ true indexOk₂ filename username now text₂) ∧
    (allowed_extensions.contains (splitextExt (pyLower filename)) = true →
      upload_document split true indexOk filename username now text ≠
        .error (.badRequest
          ("Nur " ++ String.intercalate ", " allowed_extensions ++
           " Dateien werden unterstützt"))) := by
  have hmsg : ("Nur " ++ String.intercalate ", " allowed_extensions ++
      " Dateien werden unterstützt") =
      "Nur .pdf, .sql, .md, .txt Dateien werden unterstützt" := rfl
  constructor
  · intro h
    have h2 : splitextExt (pyLower filename) ∉ allowed_extensions := by
      simpa using h
    constructor
    · simp [upload_document, h2, hmsg]
    · simp [upload_document, h2]
  · intro h
    unfold upload_document
    simp only [h, Bool.not_true, Bool.not_false, Bool.false_eq_true,
      if_false, if_true]
    split
    · intro hcontra
      rw [Except.error.injEq, UploadError.badRequest.injEq] at hcontra
      exact absurd hcontra (by decide)
    · split
      · intro hcontra
        exact absurd hcontra (by simp)
      · intro hcontra
        exact absurd hcontra (by simp)

/-- Witness for C8: ".docx" is rejected independently of the text, while
an upper-cased ".PDF" file passes the extension check. -/
theorem upload_extension_gate_witness :
    allowed_extensions.contains (splitextExt (pyLower "notes.docx")) = false ∧
    upload_document (fun t => [t]) true true "notes.docx" "trainer" "T"
        "Inhalt" =
      .error (.badRequest
        "Nur .pdf, .sql, .md, .txt Dateien werden unterstützt") ∧
    allowed_extensions.contains (splitextExt (pyLower "Lab.PDF")) = true ∧
    upload_document (fun t => [t]) true true "Lab.PDF" "trainer" "T"
        "Inhalt" ≠
      .error (.badRequest
        ("Nur " ++ String.intercalate ", " allowed_extensions ++
         " Dateien werden unterstützt")) :=
  ⟨rfl,
   ((upload_extension_gate (fun t => [t]) (fun t => [t]) true true
      "notes.docx" "trainer" "T" "Inhalt" "Inhalt").1 rfl).1,
   rfl,
   (upload_extension_gate (fun t => [t]) (fun t => [t]) true true
      "Lab.PDF" "trainer" "T" "Inhalt" "Inhalt").2 rfl⟩

/-- C6: uploading a document with blank (empty or whitespace-only)
extracted text fails with the 400 input error, with no chunking and no
index write (the outcome does not depend on the splitter or the index, and
an error carries no written documents); for non-blank text every chunk is
tagged with the `{source, file_type, uploaded_by, uploaded_at}` metadata,
all chunks are upserted, and `chunks_created` equals the number of
documents created. -/
theorem upload_blank_rejected_nonblank_indexed
    (split split₂ : String → List String) (indexOk indexOk₂ : Bool)
    (filename username now text : String)
    (hext : allowed_extensions.contains (splitextExt (pyLower filename)) =
      true) :
    ((pyStrip text).isEmpty = true →
      upload_document split true indexOk filename username now text =
        .error (.badRequest "Datei enthält keinen extrahierbaren Text") ∧
      upload_document split true indexOk filename username now text =
        upload_document split₂ true indexOk₂ filename username now text) ∧
    ((pyStrip text).isEmpty = false →
      upload_document split true true filename username now text =
        .ok ({ message := "Dokument erfolgreich hochgeladen"
             , filename := filename
             , chunks_created := (split text).length },
             (split text).map fun chunk =>
               ⟨chunk, ⟨filename, splitextExt (pyLower filename),
                 username, now⟩⟩) ∧
      ∀ resp docs,
        upload_document split true true filename username now text =
          .ok (resp, docs) →
        resp.chunks_created = docs.length ∧
        ∀ d ∈ docs, d.metadata =
          ⟨filename, splitextExt (pyLower filename), username, now⟩) := by
  have hmem : splitextExt (pyLower filename) ∈ allowed_extensions := by
    simpa using hext
  constructor
  · intro hblank
    constructor
    · simp [upload_document, hmem, hblank]
    · simp [upload_document, hmem, hblank]
  · intro hblank
    have hok : upload_document split true true filename username now text =
        .ok ({ message := "Dokument erfolgreich hochgeladen"
             , filename := filename
             , chunks_created := (split text).length },
             (split text).map fun chunk =>
               ⟨chunk, ⟨filename, splitextExt (pyLower filename),
                 username, now⟩⟩) := by
      simp [upload_document, hmem, hblank]
    refine ⟨hok, ?_⟩
    intro resp docs h
    rw [hok] at h
    rw [Except.ok.injEq, Prod.mk.injEq] at h
    obtain ⟨hresp, hdocs⟩ := h
    constructor
    · rw [← hresp, ← hdocs]
      simp
    · intro d hd
      rw [← hdocs] at hd
      obtain ⟨chunk, _, hchunk⟩ := List.mem_map.mp hd
      rw [← hchunk]

/-- Witness for C6: a whitespace-only text is rejected, and a one-chunk
upload is indexed with full provenance metadata and count 1. -/
theorem upload_blank_rejected_nonblank_indexed_witness :
    upload_document (fun t => [t]) true true "lab.txt" "trainer" "T" " \n" =
      .error (.badRequest "Datei enthält keinen extrahierbaren Text") ∧
    upload_document (fun t => [t]) true true "lab.txt" "trainer" "T"
        "Inhalt" =
      .ok (⟨"Dokument erfolgreich hochgeladen", "lab.txt", 1⟩,
        [⟨"Inhalt", ⟨"lab.txt", ".txt", "trainer", "T"⟩⟩]) ∧
    UploadResponse.chunks_created
        ⟨"Dokument erfolgreich hochgeladen", "lab.txt", 1⟩ =
      List.length [(⟨"Inhalt", ⟨"lab.txt", ".txt", "trainer", "T"⟩⟩ : ChunkDoc)] ∧
    ChunkDoc.metadata ⟨"Inhalt", ⟨"lab.txt", ".txt", "trainer", "T"⟩⟩ =
      ⟨"lab.txt", ".txt", "trainer", "T"⟩ :=
  ⟨((upload_blank_rejected_nonblank_indexed (fun t => [t]) (fun t => [t])
      true true "lab.txt" "trainer" "T" " \n" rfl).1 rfl).1,
   ((upload_blank_rejected_nonblank_indexed (fun t => [t]) (fun t => [t])
      true true "lab.txt" "trainer" "T" "Inhalt" rfl).2 rfl).1,
   (((upload_blank_rejected_nonblank_indexed (fun t => [t]) (fun t => [t])
      true true "lab.txt" "trainer" "T" "Inhalt" rfl).2 rfl).2
      ⟨"Dokument erfolgreich hochgeladen", "lab.txt", 1⟩
      [⟨"Inhalt", ⟨"lab.txt", ".txt", "trainer", "T"⟩⟩] rfl).1,
   (((upload_blank_rejected_nonblank_indexed (fun t => [t]) (fun t => [t])
      true true "lab.txt" "trainer" "T" "Inhalt" rfl).2 rfl).2
      ⟨"Dokument erfolgreich hochgeladen", "lab.txt", 1⟩
      [⟨"Inhalt", ⟨"lab.txt", ".txt", "trainer", "T"⟩⟩] rfl).2
      ⟨"Inhalt", ⟨"lab.txt", ".txt", "trainer", "T"⟩⟩ (by simp)⟩

/-! ### The Chunker (spec §4.1), modelled from the spec -/

/-- Modelled from the spec: the Chunker of §4.1.  The repository delegates
chunking to langchain's `RecursiveCharacterTextSplitter(chunk_size=1000,
chunk_overlap=200)` (app.py lines 499-504) whose implementation is not
part of src/.  The model realises the spec's contract — passages target
length 1000 with overlap 200 between consecutive passages, no empty
passage, trailing content never dropped, the final passage may be
shorter — at the hard-cut fallback positions (step 800 = 1000 - 200); the
boundary-preference refinement only moves cut points and is not modelled.
`fuel` bounds the recursion and is instantiated with the text length. -/
def chunkAux : Nat → List Char → List (List Char)
  | _, [] => []
  | 0, l => [l]
  | fuel + 1, l =>
    if l.length ≤ 1000 then [l]
    else l.take 1000 :: chunkAux fuel (l.drop 800)

/-- The chunk sequence of a character list (fuel = its length, which the
recursion never exhausts since every step drops 800 characters). -/
def chunkList (l : List Char) : List (List Char) :=
  chunkAux l.length l

/-- Modelled from the spec: `split(text) -> ordered sequence of string`
(spec §4.1), the interface the ingestion path calls at app.py line 504. -/
def split_text (s : String) : List String :=
  (chunkList s.data).map String.mk

/-- Reconstruction of the original text from the chunk sequence: every
chunk except the last contributes its first 800 characters (its last 200
characters are the overlap repeated at the start of the next chunk); the
last chunk contributes fully. -/
def joinChunks : List (List Char) → List Char
  | [] => []
  | [c] => c
  | c :: rest => c.take 800 ++ joinChunks rest

theorem chunkAux_spec : ∀ (fuel : Nat) (l : List Char), l.length ≤ fuel →
    (∀ c ∈ chunkAux fuel l, c ≠ [] ∧ c.length ≤ 1000) ∧
    joinChunks (chunkAux fuel l) = l := by
  intro fuel
  induction fuel with
  | zero =>
    intro l hl
    have hnil : l = [] := List.length_eq_zero.mp (Nat.le_zero.mp hl)
    subst hnil
    simp [chunkAux, joinChunks]
  | succ n ih =>
    intro l hl
    match l with
    | [] => simp [chunkAux, joinChunks]
    | c :: cs =>
      have hstep : chunkAux (n + 1) (c :: cs) =
          if (c :: cs).length ≤ 1000 then [c :: cs]
          else (c :: cs).take 1000 :: chunkAux n ((c :: cs).drop 800) := rfl
      by_cases hlen : (c :: cs).length ≤ 1000
      · rw [hstep, if_pos hlen]
        refine ⟨?_, rfl⟩
        intro ch hch
        rw [List.mem_singleton] at hch
        subst hch
        exact ⟨List.cons_ne_nil c cs, hlen⟩
      · have h1000 : 1000 < (c :: cs).length := lt_of_not_le hlen
        have hdlen : ((c :: cs).drop 800).length = (c :: cs).length - 800 :=
          List.length_drop 800 (c :: cs)
        have hreq : ((c :: cs).drop 800).length ≤ n := by
          rw [hdlen]
          rw [List.length_cons] at hl h1000 ⊢
          omega
        obtain ⟨ihmem, ihjoin⟩ := ih ((c :: cs).drop 800) hreq
        have hne : (c :: cs).drop 800 ≠ [] := by
          intro hcontra
          have hle := List.drop_eq_nil_iff.mp hcontra
          omega
        rw [hstep, if_neg hlen]
        constructor
        · intro ch hch
          rcases List.mem_cons.mp hch with h | h
          · subst h
            have htlen : ((c :: cs).take 1000).length = 1000 := by
              rw [List.length_take]
              omega
            constructor
            · intro hcontra
              have := congrArg List.length hcontra
              rw [htlen] at this
              simp at this
            · rw [htlen]
          · exact ihmem ch h
        · obtain ⟨r, rs, hrest⟩ :
              ∃ r rs, chunkAux n ((c :: cs).drop 800) = r :: rs := by
            cases hrest : chunkAux n ((c :: cs).drop 800) with
            | nil =>
              exfalso
              apply hne
              rw [← ihjoin, hrest]
              rfl
            | cons r rs => exact ⟨r, rs, rfl⟩
          rw [hrest]
          show ((c :: cs).take 1000).take 800 ++ joinChunks (r :: rs) =
            c :: cs
          rw [← hrest, ihjoin, List.take_take]
          rw [show min 800 1000 = 800 from by omega]
          exact List.take_append_drop 800 (c :: cs)

/-- C9 (spec-modelled): the chunker is deterministic (same text, same
target length 1000 and overlap 200 always yield the same sequence), never
produces an empty chunk, every chunk (in particular every chunk but the
last) has length at most the target 1000, and no trailing content is ever
dropped: the original text is exactly reconstructed from the sequence. -/
theorem split_text_chunker_contract (s : String) :
    (∀ t : String, s = t → split_text s = split_text t) ∧
    (∀ c ∈ split_text s, c ≠ "") ∧
    (∀ c ∈ split_text s, c.length ≤ 1000) ∧
    joinChunks ((split_text s).map String.data) = s.data := by
  obtain ⟨hmem, hjoin⟩ :=
    chunkAux_spec s.data.length s.data (Nat.le_refl _)
  refine ⟨fun t ht => by rw [ht], ?_, ?_, ?_⟩
  · intro c hc
    obtain ⟨ch, hch, hmk⟩ := List.mem_map.mp hc
    obtain ⟨hne, _⟩ := hmem ch hch
    intro hcontra
    apply hne
    rw [← hmk] at hcontra
    exact congrArg String.data hcontra
  · intro c hc
    obtain ⟨ch, hch, hmk⟩ := List.mem_map.mp hc
    obtain ⟨_, hle⟩ := hmem ch hch
    rw [← hmk]
    exact hle
  · have hid : (split_text s).map String.data = chunkList s.data := by
      have hcomp : String.data ∘ String.mk = id := rfl
      rw [split_text, List.map_map, hcomp, List.map_id]
    rw [hid]
    exact hjoin

/-- Witness for C9 at the concrete text "abc" (a single chunk). -/
theorem split_text_chunker_contract_witness :
    split_text "abc" = split_text "abc" ∧
    ("abc" : String) ≠ "" ∧ ("abc" : String).length ≤ 1000 :=
  ⟨(split_text_chunker_contract "abc").1 "abc" rfl,
   (split_text_chunker_contract "abc").2.1 "abc" (by decide),
   (split_text_chunker_contract "abc").2.2.1 "abc" (by decide)⟩
